import Mathlib

/-!
Shallow embedding of the Autonomous Session Orchestration & Resilience Engine
(`autonomy.py` and the orchestrator loop of `agent.py`).

Modelling conventions:
- Python floats and timestamps are modelled as rationals (`ℚ`); durations in
  seconds.  `datetime.now()` becomes an explicit `now : ℚ` argument.
- Python strings are modelled as `List Char`; `str.lower()` maps
  `Char.toLower`, and the `in` substring test is `List.isInfixOf`.
- `random.random()` becomes an explicit parameter `r` with `0 ≤ r < 1`.
- Mutating methods become functions returning the updated record.
-/

/-- The error taxonomy of `autonomy.py` (`class ErrorCategory(Enum)`). -/
inductive ErrorCategory where
  | TRANSIENT
  | RATE_LIMIT
  | AUTH
  | RESOURCE
  | LINEAR_API
  | PUPPETEER
  | VALIDATION
  | UNKNOWN
deriving DecidableEq

/-- `class RetryConfig`: per-category retry/backoff parameters, with the
field defaults of the Python dataclass. -/
structure RetryConfig where
  max_retries : ℕ := 5
  initial_delay : ℚ := 2
  max_delay : ℚ := 300
  exponential_base : ℚ := 2
  jitter : Bool := true
deriving DecidableEq

/-- The capped exponential delay `min(initial_delay * base ** attempt, max_delay)`
computed at the start of `RetryConfig.get_delay`. -/
def RetryConfig.base_delay (c : RetryConfig) (attempt : ℕ) : ℚ :=
  min (c.initial_delay * c.exponential_base ^ attempt) c.max_delay

/-- `RetryConfig.get_delay`: the capped exponential delay, scaled by
`0.5 + random.random()` when jitter is enabled.  The random draw is the
explicit parameter `r` (with `0 ≤ r < 1` at call sites). -/
def RetryConfig.get_delay (c : RetryConfig) (attempt : ℕ) (r : ℚ) : ℚ :=
  let delay := c.base_delay attempt
  if c.jitter then delay * (1/2 + r) else delay

/-- The `RETRY_CONFIGS` table: default retry config per error category.
The Python dict has an entry for every category, so `dict.get`'s default
branch is unreachable and the table is a total function. -/
def RETRY_CONFIGS : ErrorCategory → RetryConfig
  | .TRANSIENT => { max_retries := 10, initial_delay := 1 }
  | .RATE_LIMIT => { max_retries := 5, initial_delay := 30, max_delay := 600 }
  | .AUTH => { max_retries := 1, initial_delay := 0 }
  | .RESOURCE => { max_retries := 3, initial_delay := 5 }
  | .LINEAR_API => { max_retries := 8, initial_delay := 5, max_delay := 120 }
  | .PUPPETEER => { max_retries := 5, initial_delay := 3 }
  | .VALIDATION => { max_retries := 0 }
  | .UNKNOWN => { max_retries := 5, initial_delay := 5 }

/-- Lowercasing of an error text, modelling `error_text.lower()`. -/
def lowerStr (s : List Char) : List Char := s.map Char.toLower

/-- Keywords of the AUTH branch of `classify_error`. -/
def authKeywords : List (List Char) :=
  ["unauthorized".toList, "401".toList, "authentication".toList,
   "invalid token".toList, "expired token".toList]

/-- Keywords of the RATE_LIMIT branch of `classify_error`. -/
def rateLimitKeywords : List (List Char) :=
  ["rate limit".toList, "429".toList, "too many requests".toList, "throttl".toList]

/-- Keywords of the LINEAR_API branch of `classify_error`. -/
def linearKeywords : List (List Char) :=
  ["linear".toList, "mcp__linear".toList, "graphql".toList]

/-- Keywords of the PUPPETEER branch of `classify_error`. -/
def puppeteerKeywords : List (List Char) :=
  ["puppeteer".toList, "browser".toList, "chrome".toList,
   "timeout waiting for".toList, "navigation".toList]

/-- Keywords of the RESOURCE branch of `classify_error`. -/
def resourceKeywords : List (List Char) :=
  ["out of memory".toList, "context".toList, "max_turns".toList, "resource".toList]

/-- Keywords of the VALIDATION branch of `classify_error`. -/
def validationKeywords : List (List Char) :=
  ["blocked".toList, "not allowed".toList, "permission denied".toList, "security".toList]

/-- Keywords of the TRANSIENT branch of `classify_error`. -/
def transientKeywords : List (List Char) :=
  ["timeout".toList, "connection".toList, "network".toList, "temporary".toList,
   "econnreset".toList, "503".toList, "502".toList]

/-- `any(kw in error_lower for kw in kws)`: some keyword of the list occurs as
a substring of the (already lowercased) error text. -/
def matchesAny (error_lower : List Char) (kws : List (List Char)) : Bool :=
  kws.any (fun kw => decide (List.IsInfix kw error_lower))

/-- `classify_error(error_text)`: lowercase the text, then first-match-wins
over the ordered category branches, falling through to UNKNOWN. -/
def classify_error (error_text : List Char) : ErrorCategory :=
  let error_lower := lowerStr error_text
  if matchesAny error_lower authKeywords then .AUTH
  else if matchesAny error_lower rateLimitKeywords then .RATE_LIMIT
  else if matchesAny error_lower linearKeywords then .LINEAR_API
  else if matchesAny error_lower puppeteerKeywords then .PUPPETEER
  else if matchesAny error_lower resourceKeywords then .RESOURCE
  else if matchesAny error_lower validationKeywords then .VALIDATION
  else if matchesAny error_lower transientKeywords then .TRANSIENT
  else .UNKNOWN

/-- The body of `retry_with_backoff`'s `for attempt in range(config.max_retries + 1)`
loop, specialised to an operation that raises the same error text on every
invocation: given the actual (re-classified) category's `max_retries` bound and
the remaining list of attempt indices, counts how many times the operation is
invoked.  Each iteration invokes the operation once; after the failure the
loop breaks when `attempt >= actual_config.max_retries`, else it sleeps and
retries. -/
def retryInvocationsAux (actualMax : ℕ) : List ℕ → ℕ
  | [] => 0
  | attempt :: rest =>
      if actualMax ≤ attempt then 1 else 1 + retryInvocationsAux actualMax rest

/-- Total number of invocations of the operation performed by
`retry_with_backoff(func, error_category=assumed)` when every invocation of
`func` raises an exception whose text is `msg` (after which
`retry_with_backoff` re-raises the last exception).  The loop ranges over
`range(config.max_retries + 1)` for the *assumed* category's config, and the
break test uses the *actual* re-classified category's config. -/
def retryInvocations (assumed : ErrorCategory) (msg : List Char) : ℕ :=
  let config := RETRY_CONFIGS assumed
  let actual_config := RETRY_CONFIGS (classify_error msg)
  retryInvocationsAux actual_config.max_retries (List.range (config.max_retries + 1))

/-- `class SessionHealth`: per-session health metrics.  Timestamps are
rationals; the `datetime.now()` default of the two time fields becomes the
session's start instant, supplied to `SessionHealth.init`. -/
structure SessionHealth where
  start_time : ℚ
  last_activity : ℚ
  tool_calls : ℕ := 0
  errors : ℕ := 0
  blocked_commands : ℕ := 0
  issues_worked : List (List Char) := []
  linear_api_failures : ℕ := 0
  puppeteer_failures : ℕ := 0
deriving DecidableEq

/-- A freshly constructed `SessionHealth()` at instant `t`: both
`start_time` and `last_activity` default to `datetime.now()`. -/
def SessionHealth.init (t : ℚ) : SessionHealth :=
  { start_time := t, last_activity := t }

/-- `SessionHealth.record_activity`: refresh `last_activity` and increment
`tool_calls`. -/
def SessionHealth.record_activity (h : SessionHealth) (now : ℚ) : SessionHealth :=
  { h with last_activity := now, tool_calls := h.tool_calls + 1 }

/-- `SessionHealth.record_error`: increment `errors`, refresh
`last_activity`, and bump the per-category counter for LINEAR_API,
PUPPETEER and VALIDATION errors.  `tool_calls` is not touched. -/
def SessionHealth.record_error (h : SessionHealth) (category : ErrorCategory)
    (now : ℚ) : SessionHealth :=
  let h := { h with errors := h.errors + 1, last_activity := now }
  match category with
  | .LINEAR_API => { h with linear_api_failures := h.linear_api_failures + 1 }
  | .PUPPETEER => { h with puppeteer_failures := h.puppeteer_failures + 1 }
  | .VALIDATION => { h with blocked_commands := h.blocked_commands + 1 }
  | _ => h

/-- `SessionHealth.is_healthy(max_idle_seconds=300)`: unhealthy when idle
longer than `max_idle_seconds`, or when `tool_calls > 0` and the error rate
`errors / tool_calls` exceeds 0.5; healthy otherwise. -/
def SessionHealth.is_healthy (h : SessionHealth) (now : ℚ)
    (max_idle_seconds : ℚ := 300) : Bool :=
  let idle_time := now - h.last_activity
  if max_idle_seconds < idle_time then false
  else if 0 < h.tool_calls ∧ (1 : ℚ)/2 < (h.errors : ℚ) / (h.tool_calls : ℚ) then false
  else true

/-- The record built by `SessionHealth.get_summary`, extended with the
`success` and `timestamp` keys that `AutonomyState.record_session_result`
adds to the dict before appending it to the history. -/
structure SessionSummary where
  duration_seconds : ℚ
  tool_calls : ℕ
  errors : ℕ
  error_rate : ℚ
  blocked_commands : ℕ
  linear_failures : ℕ
  puppeteer_failures : ℕ
  issues_worked : List (List Char)
  is_healthy : Bool
  success : Bool := false
  timestamp : ℚ := 0
deriving DecidableEq

/-- `SessionHealth.get_summary` evaluated at instant `now` (the dict it
returns has no `success`/`timestamp` keys yet; those fields keep their
defaults until `record_session_result` sets them). -/
def SessionHealth.get_summary (h : SessionHealth) (now : ℚ) : SessionSummary :=
  { duration_seconds := now - h.start_time,
    tool_calls := h.tool_calls,
    errors := h.errors,
    error_rate := (h.errors : ℚ) / (max 1 h.tool_calls : ℕ),
    blocked_commands := h.blocked_commands,
    linear_failures := h.linear_api_failures,
    puppeteer_failures := h.puppeteer_failures,
    issues_worked := h.issues_worked,
    is_healthy := h.is_healthy now }

/-- `class AutonomyState`: cross-session state, with the dataclass's field
defaults.  `pause_until` is an optional absolute instant. -/
structure AutonomyState where
  consecutive_errors : ℕ := 0
  consecutive_successes : ℕ := 0
  total_sessions : ℕ := 0
  total_issues_completed : ℕ := 0
  last_error_category : Option ErrorCategory := none
  degraded_mode : Bool := false
  pause_until : Option ℚ := none
  session_history : List SessionSummary := []
  error_threshold_for_pause : ℕ := 5
  success_threshold_to_reset : ℕ := 3
  max_session_history : ℕ := 10
deriving DecidableEq

/-- The last `k` elements of a list (all of it when it is shorter). -/
def takeLast (k : ℕ) (l : List SessionSummary) : List SessionSummary :=
  l.drop (l.length - k)

/-- Python's `lst[-k:]` slice for `k = max_session_history`: the last `k`
elements — except that `lst[-0:]` is the whole list. -/
def sliceLast (k : ℕ) (l : List SessionSummary) : List SessionSummary :=
  if k = 0 then l else takeLast k l

/-- `AutonomyState.record_session_result(success, health)` at instant `now`:
update the streak counters, append the tagged health summary to
`session_history`, trim the history to the last `max_session_history`
entries when it overflows, and add the session's completed-issue count. -/
def AutonomyState.record_session_result (s : AutonomyState) (success : Bool)
    (health : SessionHealth) (now : ℚ) : AutonomyState :=
  let s := { s with total_sessions := s.total_sessions + 1 }
  let s :=
    if success then
      { s with consecutive_successes := s.consecutive_successes + 1,
               consecutive_errors := 0, degraded_mode := false }
    else
      { s with consecutive_errors := s.consecutive_errors + 1,
               consecutive_successes := 0 }
  let summary := { health.get_summary now with success := success, timestamp := now }
  let history := s.session_history ++ [summary]
  let history :=
    if s.max_session_history < history.length then sliceLast s.max_session_history history
    else history
  { s with session_history := history,
           total_issues_completed := s.total_issues_completed + health.issues_worked.length }

/-- The escalating pause computed by `should_pause` once the error streak
reaches the threshold: `min(30 * 2 ** (consecutive_errors - threshold), 600)`
seconds (integer arithmetic, as in Python). -/
def AutonomyState.pauseDuration (s : AutonomyState) : ℕ :=
  min (30 * 2 ^ (s.consecutive_errors - s.error_threshold_for_pause)) 600

/-- `AutonomyState.should_pause()` at instant `now`: if an unexpired
`pause_until` exists, report the remaining wait; else if the error streak
reached the threshold, schedule and report an escalating pause; else
`(False, 0)`.  Returns the pair together with the (possibly) updated
state. -/
def AutonomyState.should_pause (s : AutonomyState) (now : ℚ) :
    (Bool × ℚ) × AutonomyState :=
  let check_errors : (Bool × ℚ) × AutonomyState :=
    if s.error_threshold_for_pause ≤ s.consecutive_errors then
      let d := s.pauseDuration
      ((true, (d : ℚ)), { s with pause_until := some (now + (d : ℚ)) })
    else
      ((false, 0), s)
  match s.pause_until with
  | some p => if now < p then ((true, p - now), s) else check_errors
  | none => check_errors

/-- The record written to `.autonomy_state.json` by `save_autonomy_state`. -/
structure SavedState where
  consecutive_errors : ℕ
  consecutive_successes : ℕ
  total_sessions : ℕ
  total_issues_completed : ℕ
  degraded_mode : Bool
  pause_until : Option ℚ
  session_history : List SessionSummary
  last_updated : ℚ
deriving DecidableEq

/-- `save_autonomy_state`: serialize the persisted fields of the state
(`last_updated` is `datetime.now()` at save time). -/
def save_autonomy_state (s : AutonomyState) (now : ℚ) : SavedState :=
  { consecutive_errors := s.consecutive_errors,
    consecutive_successes := s.consecutive_successes,
    total_sessions := s.total_sessions,
    total_issues_completed := s.total_issues_completed,
    degraded_mode := s.degraded_mode,
    pause_until := s.pause_until,
    session_history := s.session_history,
    last_updated := now }

/-- `load_autonomy_state` on a readable state file: start from a fresh
`AutonomyState()`, copy the persisted fields, and clear `pause_until` when
the loaded pause has already expired (`datetime.now() > pause_until`). -/
def load_autonomy_state (data : SavedState) (now : ℚ) : AutonomyState :=
  let s : AutonomyState := {}
  let s := { s with
    consecutive_errors := data.consecutive_errors,
    consecutive_successes := data.consecutive_successes,
    total_sessions := data.total_sessions,
    total_issues_completed := data.total_issues_completed,
    degraded_mode := data.degraded_mode,
    session_history := data.session_history }
  match data.pause_until with
  | some p => if p < now then { s with pause_until := none } else { s with pause_until := some p }
  | none => s

/-- Outcome of one iteration's attempt to run a session in
`run_autonomous_agent` (`agent.py`):
- `creationError msg`: an exception escaped the `try` block around client
  creation / session setup and was caught by the orchestrator's
  `except Exception` handler (status becomes `"error"`);
- `streamError msg`: an exception was raised inside the running session's
  event stream and caught *inside* `run_agent_session`, which returns
  `("error", msg)` to the orchestrator;
- `timeout`: `asyncio.wait_for` expired (status `"timeout"`);
- `completed`: `run_agent_session` returned `("continue", _)`. -/
inductive SessionResult where
  | creationError (msg : List Char)
  | streamError (msg : List Char)
  | timeout
  | completed
deriving DecidableEq

/-- The orchestrator's status string for a session result. -/
inductive SessionStatus where
  | continuing
  | error
  | timedOut
deriving DecidableEq

/-- The `status` variable of the orchestrator loop after the session ran. -/
def SessionResult.status : SessionResult → SessionStatus
  | .creationError _ => .error
  | .streamError _ => .error
  | .timeout => .timedOut
  | .completed => .continuing

/-- Why the orchestrator's `while True` loop terminated. -/
inductive StopCause where
  | maxIterations
  | authFailure
  | projectComplete
deriving DecidableEq

/-- The in-body `break` decision of one iteration of `run_autonomous_agent`,
after the session attempt produced `r`:
- the `except Exception` handler breaks when the creation error classifies
  as AUTH (stream errors never reach this handler — `run_agent_session`
  catches them and returns a status instead);
- otherwise, with auto-stop enabled, a completed session whose completion
  check reports the project complete breaks;
- otherwise the loop proceeds to the next iteration (`none`). -/
def loopBreak (r : SessionResult) (auto_stop : Bool) (complete : Bool) :
    Option StopCause :=
  match r with
  | .creationError msg =>
      if classify_error msg = .AUTH then some .authFailure
      else none
  | _ =>
      if auto_stop ∧ r.status = .continuing ∧ complete then some .projectComplete
      else none

/-- The `if max_iterations and iteration > max_iterations` guard at the top
of the loop (Python truthiness: `max_iterations = 0` or `None` disables the
check). -/
def maxIterGuard (max_iterations : Option ℕ) (iteration : ℕ) : Bool :=
  match max_iterations with
  | some m => decide (m ≠ 0 ∧ m < iteration)
  | none => false

/-- One scripted iteration of the orchestrator loop: the session attempt's
result and what the completion check would report afterwards. -/
structure IterationScript where
  result : SessionResult
  complete : Bool
deriving DecidableEq

/-- The orchestrator loop of `run_autonomous_agent`, run over a script of
iteration outcomes. `iteration` is the counter before the next increment
(0 at entry).  Returns the final value of the iteration counter together
with the stop cause (`none` when the script was exhausted with the loop
still running).  A `some .maxIterations` stop happens before the session of
that iteration runs; any other stop happens after it. -/
def runLoop (max_iterations : Option ℕ) (auto_stop : Bool) :
    List IterationScript → ℕ → ℕ × Option StopCause
  | [], iteration => (iteration, none)
  | it :: rest, iteration =>
      let i := iteration + 1
      if maxIterGuard max_iterations i then (i, some .maxIterations)
      else
        match loopBreak it.result auto_stop it.complete with
        | some c => (i, some c)
        | none => runLoop max_iterations auto_stop rest i

/-- Number of sessions actually started by `runLoop` on a script: every
iteration that passes the max-iterations guard starts a session. -/
def sessionsRun (max_iterations : Option ℕ) (auto_stop : Bool) :
    List IterationScript → ℕ → ℕ
  | [], _ => 0
  | it :: rest, iteration =>
      let i := iteration + 1
      if maxIterGuard max_iterations i then 0
      else
        match loopBreak it.result auto_stop it.complete with
        | some _ => 1
        | none => 1 + sessionsRun max_iterations auto_stop rest i

/-- One pass of the `Watchdog._monitor` loop body over a list of wake-up
instants, with no intervening `pet()` calls: at instant `t`, if
`t - last_pet > timeout` the timeout callback fires (the instant is
recorded) and the clock resets (`self.pet()`); the loop then sleeps until
the next instant.  Returns the instants at which the callback fired. -/
def monitorFires (timeout last_pet : ℚ) : List ℚ → List ℚ
  | [] => []
  | t :: rest =>
      if timeout < t - last_pet then t :: monitorFires timeout t rest
      else monitorFires timeout last_pet rest

/-- The wake-up instants of a watchdog started at instant 0 whose monitor
checks every 10 seconds (`await asyncio.sleep(10)`): the k-th check runs at
`10 * k` seconds, for `k < n` checks before the watchdog is stopped. -/
def watchdogTicks (n : ℕ) : List ℚ :=
  (List.range n).map (fun (k : ℕ) => 10 * (k : ℚ))

/-- C9: `classify_error` is a total pure function (it is a Lean `def`, so
totality and determinism hold by construction), and because the AUTH branch
is checked first, any error text that contains an authentication keyword
(case-insensitively, i.e. after lowercasing) classifies as AUTH. -/
theorem classify_error_auth_keyword (s kw : List Char)
    (hmem : kw ∈ authKeywords) (hsub : List.IsInfix kw (lowerStr s)) :
    classify_error s = ErrorCategory.AUTH := by
  have h : matchesAny (lowerStr s) authKeywords = true :=
    List.any_eq_true.mpr ⟨kw, hmem, decide_eq_true hsub⟩
  simp [classify_error, h]

/-- Witness for `classify_error_auth_keyword`: the text
`"Error: 401 Unauthorized"` contains the auth keyword `"401"` and
classifies as AUTH (and re-classifying the same text gives AUTH again,
since `classify_error` is a function). -/
theorem classify_error_auth_keyword_witness :
    "401".toList ∈ authKeywords ∧
    List.IsInfix "401".toList (lowerStr "Error: 401 Unauthorized".toList) ∧
    classify_error "Error: 401 Unauthorized".toList = ErrorCategory.AUTH :=
  ⟨by decide, by decide,
    classify_error_auth_keyword _ "401".toList (by decide) (by decide)⟩

/-- C4: `record_session_result` resets the opposite streak counter on every
call — on success `consecutive_errors` becomes 0 (and `consecutive_successes`
increments, `degraded_mode` clears), on failure `consecutive_successes`
becomes 0 (and `consecutive_errors` increments) — so after any call at
least one of the two counters is zero, which preserves the mutual-exclusion
invariant from the all-zero initial state. -/
theorem record_session_result_streaks (s : AutonomyState) (success : Bool)
    (health : SessionHealth) (now : ℚ) :
    (s.record_session_result success health now).consecutive_errors
        = (if success then 0 else s.consecutive_errors + 1) ∧
    (s.record_session_result success health now).consecutive_successes
        = (if success then s.consecutive_successes + 1 else 0) ∧
    (s.record_session_result success health now).degraded_mode
        = (if success then false else s.degraded_mode) ∧
    ((s.record_session_result success health now).consecutive_errors = 0 ∨
        (s.record_session_result success health now).consecutive_successes = 0) := by
  cases success <;> simp [AutonomyState.record_session_result]

/-- C8: saving an `AutonomyState` and loading it back reproduces every
persisted field, except that `pause_until` is cleared when it had already
expired at load time (`load` and `save` are functions of the file record
and the current instant, hence deterministic). -/
theorem save_load_roundtrip (s : AutonomyState) (tSave tLoad : ℚ) :
    (load_autonomy_state (save_autonomy_state s tSave) tLoad).total_sessions
        = s.total_sessions ∧
    (load_autonomy_state (save_autonomy_state s tSave) tLoad).consecutive_errors
        = s.consecutive_errors ∧
    (load_autonomy_state (save_autonomy_state s tSave) tLoad).consecutive_successes
        = s.consecutive_successes ∧
    (load_autonomy_state (save_autonomy_state s tSave) tLoad).total_issues_completed
        = s.total_issues_completed ∧
    (load_autonomy_state (save_autonomy_state s tSave) tLoad).degraded_mode
        = s.degraded_mode ∧
    (load_autonomy_state (save_autonomy_state s tSave) tLoad).session_history
        = s.session_history ∧
    (load_autonomy_state (save_autonomy_state s tSave) tLoad).pause_until
        = (match s.pause_until with
            | some p => if p < tLoad then none else some p
            | none => none) := by
  cases h : s.pause_until <;>
    simp only [load_autonomy_state, save_autonomy_state, h] <;>
    first
      | simp
      | (split <;> simp)

/-- C1: the retry loop of `retry_with_backoff` iterates over
`range(config.max_retries + 1)` for the caller's *assumed* category, so the
assumed category's `max_retries` still caps the invocation count.  With
assumed category AUTH (`max_retries = 1`) and an operation that always
fails with `"connection timeout"` (actual category TRANSIENT,
`max_retries = 10`), the operation is invoked only 2 times, not the
`actual.max_retries + 1 = 11` times the specification's
"actual, re-classified category wins" rule requires. -/
theorem retry_assumed_category_caps_invocations :
    classify_error "connection timeout".toList = ErrorCategory.TRANSIENT ∧
    (RETRY_CONFIGS ErrorCategory.TRANSIENT).max_retries + 1 = 11 ∧
    retryInvocations ErrorCategory.AUTH "connection timeout".toList = 2 := by
  refine ⟨by decide, by decide, by decide⟩

/-- C3: `should_pause` returns `(true, d)` with `d > 0` exactly when an
unexpired `pause_until` exists (then `d` is the remaining wait and the state
is unchanged) or the error streak reached the threshold (then
`d = min(30 * 2^(consecutive_errors - threshold), 600) > 0` and
`pause_until` is set to `now + d`); in every other state it returns
`(false, 0)` unchanged. -/
theorem should_pause_characterization (s : AutonomyState) (now : ℚ) :
    (∀ p, s.pause_until = some p → now < p →
        s.should_pause now = ((true, p - now), s) ∧ 0 < p - now) ∧
    ((∀ p, s.pause_until = some p → p ≤ now) →
        s.error_threshold_for_pause ≤ s.consecutive_errors →
        s.should_pause now
            = ((true, (s.pauseDuration : ℚ)),
               { s with pause_until := some (now + (s.pauseDuration : ℚ)) }) ∧
          0 < (s.pauseDuration : ℚ)) ∧
    ((∀ p, s.pause_until = some p → p ≤ now) →
        s.consecutive_errors < s.error_threshold_for_pause →
        s.should_pause now = ((false, 0), s)) := by
  have hdpos : 0 < (s.pauseDuration : ℚ) := by
    have h30 : (0:ℕ) < 30 * 2 ^ (s.consecutive_errors - s.error_threshold_for_pause) := by
      positivity
    have hmin : 0 < s.pauseDuration := lt_min h30 (by norm_num)
    exact_mod_cast hmin
  refine ⟨?_, ?_, ?_⟩
  · intro p hp hlt
    refine ⟨?_, by linarith⟩
    simp [AutonomyState.should_pause, hp, hlt]
  · intro hexp hth
    refine ⟨?_, hdpos⟩
    rcases h : s.pause_until with _ | p
    · simp [AutonomyState.should_pause, h, hth]
    · have hple : p ≤ now := hexp p h
      simp [AutonomyState.should_pause, h, hth, not_lt.mpr hple]
  · intro hexp hth
    rcases h : s.pause_until with _ | p
    · simp [AutonomyState.should_pause, h, not_le.mpr hth]
    · have hple : p ≤ now := hexp p h
      simp [AutonomyState.should_pause, h, not_le.mpr hth, not_lt.mpr hple]

/-- Witness for `should_pause_characterization`: with the default threshold
5, exactly 5 consecutive errors and no pending pause, `should_pause`
returns `(true, 30)` and schedules `pause_until = now + 30`. -/
theorem should_pause_characterization_witness :
    ({ consecutive_errors := 5 } : AutonomyState).should_pause 0
        = ((true, (({ consecutive_errors := 5 } : AutonomyState).pauseDuration : ℚ)),
           { ({ consecutive_errors := 5 } : AutonomyState) with
              pause_until := some (0 + (({ consecutive_errors := 5 } : AutonomyState).pauseDuration : ℚ)) }) ∧
    (({ consecutive_errors := 5 } : AutonomyState).pauseDuration : ℚ) = 30 :=
  ⟨((should_pause_characterization { consecutive_errors := 5 } 0).2.1
      (fun p hp => Option.noConfusion hp) (by decide)).1,
    by norm_num [AutonomyState.pauseDuration]⟩

/-- C7: with `exponential_base >= 1` (and nonnegative `initial_delay`,
`max_delay` and a jitter draw `r` in `[0, 1)`), the unjittered delay
`min(initial_delay * base^n, max_delay)` is non-decreasing in `n` and never
exceeds `max_delay`; `get_delay` equals that delay scaled by the uniform
factor `0.5 + r` in `[0.5, 1.5)` when jitter is enabled, and is then at
most `max_delay * 1.5`. -/
theorem get_delay_monotone_and_bounded (c : RetryConfig) (n : ℕ) (r : ℚ)
    (hbase : 1 ≤ c.exponential_base) (hinit : 0 ≤ c.initial_delay)
    (hmax : 0 ≤ c.max_delay) (hr0 : 0 ≤ r) (hr1 : r < 1) :
    c.base_delay n ≤ c.base_delay (n + 1) ∧
    c.base_delay n ≤ c.max_delay ∧
    c.get_delay n r
        = (if c.jitter then c.base_delay n * (1/2 + r) else c.base_delay n) ∧
    (c.jitter = true → c.get_delay n r ≤ c.max_delay * (3/2)) := by
  have hb0 : (0:ℚ) ≤ c.exponential_base := le_trans zero_le_one hbase
  have hpow : c.exponential_base ^ n ≤ c.exponential_base ^ (n + 1) :=
    pow_le_pow_right₀ hbase (Nat.le_succ n)
  have hnn : 0 ≤ c.base_delay n :=
    le_min (mul_nonneg hinit (pow_nonneg hb0 n)) hmax
  refine ⟨min_le_min (mul_le_mul_of_nonneg_left hpow hinit) le_rfl,
          min_le_right _ _, rfl, ?_⟩
  intro hj
  have heq : c.get_delay n r = c.base_delay n * (1/2 + r) := by
    simp [RetryConfig.get_delay, hj]
  rw [heq]
  exact mul_le_mul (min_le_right _ _) (by linarith) (by linarith) hmax

/-- Witness for `get_delay_monotone_and_bounded` at the default
`RetryConfig` (jitter enabled), attempt 3, jitter draw `r = 1/4`. -/
theorem get_delay_monotone_and_bounded_witness :
    ({} : RetryConfig).base_delay 3 ≤ ({} : RetryConfig).base_delay (3 + 1) ∧
    ({} : RetryConfig).base_delay 3 ≤ ({} : RetryConfig).max_delay ∧
    ({} : RetryConfig).get_delay 3 (1/4)
        = (if ({} : RetryConfig).jitter
            then ({} : RetryConfig).base_delay 3 * (1/2 + 1/4)
            else ({} : RetryConfig).base_delay 3) ∧
    (({} : RetryConfig).jitter = true →
        ({} : RetryConfig).get_delay 3 (1/4) ≤ ({} : RetryConfig).max_delay * (3/2)) :=
  get_delay_monotone_and_bounded {} 3 (1/4)
    (show (1:ℚ) ≤ 2 by norm_num) (show (0:ℚ) ≤ 2 by norm_num)
    (show (0:ℚ) ≤ 300 by norm_num) (by norm_num) (by norm_num)

/-- C2 counterexample: an AUTH-classified error raised inside the running
session's event stream is caught by `run_agent_session`, which returns
status `"error"`; the orchestrator's AUTH `break` lives only in the
session-creation `except` handler, so the loop does not stop and starts
another session (here the counter reaches 2 with no stop cause). -/
theorem stream_auth_error_does_not_stop :
    classify_error "401 unauthorized".toList = ErrorCategory.AUTH ∧
    (SessionResult.streamError "401 unauthorized".toList).status = SessionStatus.error ∧
    loopBreak (SessionResult.streamError "401 unauthorized".toList) true false = none ∧
    runLoop none true
        [⟨SessionResult.streamError "401 unauthorized".toList, false⟩,
         ⟨SessionResult.completed, false⟩] 0
      = (2, none) ∧
    sessionsRun none true
        [⟨SessionResult.streamError "401 unauthorized".toList, false⟩,
         ⟨SessionResult.completed, false⟩] 0
      = 2 := by
  refine ⟨by decide, by decide, by decide, by decide, by decide⟩

/-- C2 amended: an `error` outcome with category AUTH terminates the loop
immediately — with no further session started — only when the AUTH-classified
exception was raised while constructing the session (caught by the
orchestrator's `except` handler); an AUTH-classified error from inside the
running session's event stream never breaks the loop, and the only
error-driven in-body stop cause is the session-creation AUTH failure
(max-iterations being the only other error-independent termination,
checked at the top of each iteration). -/
theorem auth_stop_only_at_session_creation (max_iterations : Option ℕ)
    (auto_stop : Bool) (msg : List Char) (complete : Bool)
    (rest : List IterationScript) (iteration : ℕ)
    (hauth : classify_error msg = ErrorCategory.AUTH)
    (hguard : maxIterGuard max_iterations (iteration + 1) = false) :
    runLoop max_iterations auto_stop
        (⟨.creationError msg, complete⟩ :: rest) iteration
      = (iteration + 1, some .authFailure) ∧
    sessionsRun max_iterations auto_stop
        (⟨.creationError msg, complete⟩ :: rest) iteration = 1 ∧
    (∀ (msg' : List Char) (complete' : Bool) (rest' : List IterationScript)
        (iter' : ℕ),
        runLoop max_iterations auto_stop
            (⟨.streamError msg', complete'⟩ :: rest') iter'
          = if maxIterGuard max_iterations (iter' + 1)
              then (iter' + 1, some .maxIterations)
              else runLoop max_iterations auto_stop rest' (iter' + 1)) ∧
    (∀ (r : SessionResult) (a c : Bool) (cause : StopCause),
        loopBreak r a c = some cause → r.status = .error →
        cause = .authFailure ∧
          ∃ m, r = .creationError m ∧ classify_error m = .AUTH) := by
  have hbreak : loopBreak (SessionResult.creationError msg) auto_stop complete
      = some .authFailure := by
    simp [loopBreak, hauth]
  refine ⟨?_, ?_, ?_, ?_⟩
  · simp [runLoop, hguard, hbreak]
  · simp [sessionsRun, hguard, hbreak]
  · intro msg' complete' rest' iter'
    have hsb : loopBreak (SessionResult.streamError msg') auto_stop complete' = none := by
      simp [loopBreak, SessionResult.status]
    by_cases hg : maxIterGuard max_iterations (iter' + 1) = true
    · simp [runLoop, hg]
    · simp at hg
      simp [runLoop, hg, hsb]
  · intro r a c cause hsome hstat
    cases r with
    | creationError m =>
        by_cases hm : classify_error m = ErrorCategory.AUTH
        · simp [loopBreak, hm] at hsome
          exact ⟨hsome.symm, m, rfl, hm⟩
        · simp [loopBreak, hm] at hsome
    | streamError m =>
        simp [loopBreak, SessionResult.status] at hsome
    | timeout =>
        simp [SessionResult.status] at hstat
    | completed =>
        simp [SessionResult.status] at hstat

/-- Witness for `auth_stop_only_at_session_creation`: a session-creation
error `"401 unauthorized"` at the first iteration, unlimited iterations. -/
theorem auth_stop_only_at_session_creation_witness :
    runLoop none true
        [⟨SessionResult.creationError "401 unauthorized".toList, false⟩] 0
      = (0 + 1, some .authFailure) ∧
    sessionsRun none true
        [⟨SessionResult.creationError "401 unauthorized".toList, false⟩] 0 = 1 ∧
    (∀ (msg' : List Char) (complete' : Bool) (rest' : List IterationScript)
        (iter' : ℕ),
        runLoop none true (⟨.streamError msg', complete'⟩ :: rest') iter'
          = if maxIterGuard none (iter' + 1)
              then (iter' + 1, some .maxIterations)
              else runLoop none true rest' (iter' + 1)) ∧
    (∀ (r : SessionResult) (a c : Bool) (cause : StopCause),
        loopBreak r a c = some cause → r.status = .error →
        cause = .authFailure ∧
          ∃ m, r = .creationError m ∧ classify_error m = .AUTH) :=
  auth_stop_only_at_session_creation none true "401 unauthorized".toList false [] 0
    (by decide) (by decide)

/-- Tick instants `10*a, 10*(a+1), ...` for `n` consecutive checks of the
10-second monitor loop, starting at the `a`-th check. -/
def ticksFrom (a n : ℕ) : List ℚ :=
  (List.range n).map (fun (k : ℕ) => 10 * ((a + k : ℕ) : ℚ))

theorem ticksFrom_succ (a m : ℕ) :
    ticksFrom a (m + 1) = 10 * (a : ℚ) :: ticksFrom (a + 1) m := by
  unfold ticksFrom
  rw [List.range_succ_eq_map]
  simp only [List.map_cons, List.map_map, Nat.add_zero]
  refine congrArg₂ _ rfl (List.map_congr_left ?_)
  intro k _
  simp only [Function.comp_apply]
  push_cast
  ring

theorem watchdogTicks_eq_ticksFrom (n : ℕ) : watchdogTicks n = ticksFrom 0 n := by
  unfold watchdogTicks ticksFrom
  exact List.map_congr_left (fun k _ => by push_cast; ring)

/-- With no pets, every 10-second check after a check at `10*a` (with the
clock reset there) finds more than 5 seconds elapsed and fires. -/
theorem monitorFires_all (m : ℕ) : ∀ a : ℕ,
    monitorFires 5 (10 * (a : ℚ)) (ticksFrom (a + 1) m) = ticksFrom (a + 1) m := by
  induction m with
  | zero => intro a; simp [ticksFrom, monitorFires]
  | succ m ih =>
      intro a
      rw [ticksFrom_succ]
      unfold monitorFires
      rw [if_pos (by push_cast; linarith)]
      rw [ih (a + 1)]

/-- A timeout callback can only fire at one of the monitor's check
instants; in particular no callback fires after the last check that ran
before `stop()` cancelled the monitor task. -/
theorem monitorFires_mem (timeout last_pet : ℚ) (ticks : List ℚ) (t : ℚ)
    (ht : t ∈ monitorFires timeout last_pet ticks) : t ∈ ticks := by
  induction ticks generalizing last_pet with
  | nil => simp [monitorFires] at ht
  | cons a rest ih =>
      unfold monitorFires at ht
      by_cases h : timeout < a - last_pet
      · rw [if_pos h] at ht
        rcases List.mem_cons.mp ht with h1 | h2
        · exact List.mem_cons.mpr (Or.inl h1)
        · exact List.mem_cons.mpr (Or.inr (ih _ h2))
      · rw [if_neg h] at ht
        exact List.mem_cons.mpr (Or.inr (ih _ ht))

theorem ticksFrom_filter_lt11 (k a : ℕ) (ha : 2 ≤ a) :
    (ticksFrom a k).filter (fun t => decide (t < 11)) = [] := by
  rw [List.filter_eq_nil_iff]
  intro t htmem
  rcases List.mem_map.mp htmem with ⟨j, _, rfl⟩
  simp only [decide_eq_true_eq, not_lt]
  have hcast : (2 : ℚ) ≤ ((a + j : ℕ) : ℚ) := by
    have h2 : (2 : ℕ) ≤ a + j := le_trans ha (Nat.le_add_right a j)
    exact_mod_cast h2
  linarith

/-- C5 counterexample: the monitor loop checks only every 10 seconds
(`await asyncio.sleep(10)`), so with `timeout_seconds = 5` and no `pet()`
after start, the first callback fires at the check at t = 10 s — the number
of fires before 7 s is 0, not 1. -/
theorem watchdog_no_fire_before_7s :
    monitorFires 5 0 (watchdogTicks 4) = [10, 20, 30] ∧
    ((monitorFires 5 0 (watchdogTicks 4)).filter (fun t => decide (t < 7))).length = 0 := by
  have hticks : watchdogTicks 4 = [0, 10, 20, 30] := by
    norm_num [watchdogTicks, List.range_succ]
  have hfires : monitorFires 5 0 (watchdogTicks 4) = [10, 20, 30] := by
    rw [hticks]
    norm_num [monitorFires]
  refine ⟨hfires, ?_⟩
  rw [hfires]
  norm_num [List.filter]

/-- C5 amended: with `timeout_seconds = 5` and no `pet()` after start, the
callback fires exactly once before 11 s (at the first 10-second check that
observes the breach, t = 10); each fire resets the clock, so the fires are
exactly the subsequent checks `10, 20, 30, ...` — a still-silent session
re-triggers only one full check interval later, never continuously; and a
callback can fire only at a check that actually ran, so none fires after
`stop()` cancels and awaits the monitor task. -/
theorem watchdog_fires_at_first_check_after_breach (n : ℕ) (hn : 2 ≤ n) :
    monitorFires 5 0 (watchdogTicks n) = ticksFrom 1 (n - 1) ∧
    ((monitorFires 5 0 (watchdogTicks n)).filter (fun t => decide (t < 11))).length = 1 ∧
    (∀ (timeout last_pet : ℚ) (ticks : List ℚ) (t : ℚ),
        t ∈ monitorFires timeout last_pet ticks → t ∈ ticks) := by
  obtain ⟨m, rfl⟩ : ∃ m, n = m + 1 := ⟨n - 1, by omega⟩
  have hfires : monitorFires 5 0 (watchdogTicks (m + 1)) = ticksFrom 1 m := by
    rw [watchdogTicks_eq_ticksFrom, ticksFrom_succ]
    unfold monitorFires
    rw [if_neg (by push_cast; norm_num)]
    simpa using monitorFires_all m 0
  refine ⟨by simpa using hfires, ?_, monitorFires_mem⟩
  rw [hfires]
  obtain ⟨k, rfl⟩ : ∃ k, m = k + 1 := ⟨m - 1, by omega⟩
  have hc : (decide ((10 : ℚ) * ((1 : ℕ) : ℚ) < 11)) = true := by
    rw [decide_eq_true_eq]
    push_cast
    norm_num
  rw [ticksFrom_succ, List.filter_cons, if_pos hc,
      ticksFrom_filter_lt11 k (1 + 1) (by norm_num)]
  rfl

/-- Witness for `watchdog_fires_at_first_check_after_breach` at `n = 4`
monitor checks. -/
theorem watchdog_fires_at_first_check_after_breach_witness :
    monitorFires 5 0 (watchdogTicks 4) = ticksFrom 1 (4 - 1) ∧
    ((monitorFires 5 0 (watchdogTicks 4)).filter (fun t => decide (t < 11))).length = 1 ∧
    (∀ (timeout last_pet : ℚ) (ticks : List ℚ) (t : ℚ),
        t ∈ monitorFires timeout last_pet ticks → t ∈ ticks) :=
  watchdog_fires_at_first_check_after_breach 4 (by norm_num)

theorem takeLast_of_length_le (k : ℕ) (l : List SessionSummary)
    (h : l.length ≤ k) : takeLast k l = l := by
  unfold takeLast
  rw [Nat.sub_eq_zero_of_le h, List.drop_zero]

theorem takeLast_cons (k : ℕ) (a : SessionSummary) (l : List SessionSummary)
    (h : k ≤ l.length) : takeLast k (a :: l) = takeLast k l := by
  unfold takeLast
  have hlen : (a :: l).length - k = (l.length - k) + 1 := by
    simp only [List.length_cons]
    omega
  rw [hlen, List.drop_succ_cons]

theorem takeLast_length_le (k : ℕ) (l : List SessionSummary) :
    (takeLast k l).length ≤ k := by
  unfold takeLast
  rw [List.length_drop]
  omega

theorem takeLast_append_takeLast (k : ℕ) (ys l : List SessionSummary) :
    takeLast k (takeLast k l ++ ys) = takeLast k (l ++ ys) := by
  induction l with
  | nil => simp [takeLast]
  | cons a l ih =>
      by_cases h : l.length + 1 ≤ k
      · rw [takeLast_of_length_le k (a :: l) (by simpa using h)]
      · have hk : k ≤ l.length := by omega
        rw [takeLast_cons k a l hk, ih, List.cons_append,
            takeLast_cons k a (l ++ ys) (by simp only [List.length_append]; omega)]

/-- One `record_session_result` call keeps the history equal to the last 10
of everything appended so far, and preserves the configured bound. -/
theorem record_history_step (s : AutonomyState) (success : Bool)
    (health : SessionHealth) (now : ℚ) (hmax : s.max_session_history = 10) :
    (s.record_session_result success health now).session_history
        = takeLast 10 (s.session_history
            ++ [{ health.get_summary now with success := success, timestamp := now }]) ∧
    (s.record_session_result success health now).max_session_history = 10 := by
  cases success <;>
    · refine ⟨?_, hmax⟩
      simp only [AutonomyState.record_session_result, Bool.false_eq_true, if_false,
        if_true, hmax]
      split
      · simp [sliceLast]
      · next hc => rw [takeLast_of_length_le 10 _ (Nat.le_of_not_lt hc)]

/-- Fold of `record_session_result` over a list of
(success, health, instant) session outcomes. -/
def applyResults (s : AutonomyState)
    (evs : List (Bool × SessionHealth × ℚ)) : AutonomyState :=
  evs.foldl (fun st e => st.record_session_result e.1 e.2.1 e.2.2) s

/-- The history entry appended for one session outcome. -/
def resultSummary (e : Bool × SessionHealth × ℚ) : SessionSummary :=
  { e.2.1.get_summary e.2.2 with success := e.1, timestamp := e.2.2 }

/-- C6: after any number of `record_session_result` calls starting from a
state with the configured bound 10 and a history within the bound, the
history is exactly the last 10 appended summaries (FIFO: oldest evicted
first) and its length never exceeds 10. -/
theorem session_history_bounded_fifo (s : AutonomyState)
    (evs : List (Bool × SessionHealth × ℚ))
    (hmax : s.max_session_history = 10) (hlen : s.session_history.length ≤ 10) :
    (applyResults s evs).session_history
        = takeLast 10 (s.session_history ++ evs.map resultSummary) ∧
    (applyResults s evs).session_history.length ≤ 10 := by
  induction evs generalizing s with
  | nil =>
      refine ⟨?_, hlen⟩
      simp only [applyResults, List.foldl_nil, List.map_nil, List.append_nil]
      rw [takeLast_of_length_le 10 _ hlen]
  | cons e rest ih =>
      obtain ⟨hstep, hmax'⟩ := record_history_step s e.1 e.2.1 e.2.2 hmax
      have hlen' : (s.record_session_result e.1 e.2.1 e.2.2).session_history.length ≤ 10 := by
        rw [hstep]
        exact takeLast_length_le _ _
      have hrec := ih (s.record_session_result e.1 e.2.1 e.2.2) hmax' hlen'
      have happ : applyResults s (e :: rest)
          = applyResults (s.record_session_result e.1 e.2.1 e.2.2) rest := rfl
      refine ⟨?_, by rw [happ]; exact hrec.2⟩
      rw [happ, hrec.1, hstep, takeLast_append_takeLast, List.append_assoc]
      rfl

/-- Witness for `session_history_bounded_fifo`: 1000 insertions into a
fresh `AutonomyState`. -/
theorem session_history_bounded_fifo_witness :
    (applyResults {} (List.replicate 1000 (false, SessionHealth.init 0, 0))).session_history
        = takeLast 10 (({} : AutonomyState).session_history
            ++ (List.replicate 1000 (false, SessionHealth.init 0, (0:ℚ))).map resultSummary) ∧
    (applyResults {} (List.replicate 1000 (false, SessionHealth.init 0, 0))).session_history.length ≤ 10 :=
  session_history_bounded_fifo {} (List.replicate 1000 (false, SessionHealth.init 0, 0))
    rfl (by simp)

theorem record_error_tool_calls (h : SessionHealth) (c : ErrorCategory) (t : ℚ) :
    (h.record_error c t).tool_calls = h.tool_calls := by
  cases c <;> rfl

theorem record_error_last_activity (h : SessionHealth) (c : ErrorCategory) (t : ℚ) :
    (h.record_error c t).last_activity = t := by
  cases c <;> rfl

/-- Fold of `record_error` over (instant, category) error events, starting
from a fresh session begun at `t0`, with `record_activity` never called. -/
def applyErrors (t0 : ℚ) (evs : List (ℚ × ErrorCategory)) : SessionHealth :=
  evs.foldl (fun h e => h.record_error e.2 e.1) (SessionHealth.init t0)

theorem foldl_record_error_tool_calls (evs : List (ℚ × ErrorCategory)) :
    ∀ h0 : SessionHealth,
      (evs.foldl (fun h e => h.record_error e.2 e.1) h0).tool_calls = h0.tool_calls := by
  induction evs with
  | nil => intro h0; rfl
  | cons e rest ih =>
      intro h0
      rw [List.foldl_cons, ih, record_error_tool_calls]

theorem foldl_record_error_last (evs : List (ℚ × ErrorCategory)) (hne : evs ≠ [])
    (h0 : SessionHealth) :
    (evs.foldl (fun h e => h.record_error e.2 e.1) h0).last_activity
      = (evs.getLast hne).1 := by
  induction evs using List.reverseRecOn with
  | nil => exact absurd rfl hne
  | append_singleton xs e _ =>
      rw [List.foldl_append, List.foldl_cons, List.foldl_nil,
          record_error_last_activity]
      have hg : (xs ++ [e]).getLast hne = e := List.getLast_append_singleton xs
      rw [hg]

/-- C10: a session on which only `record_error` was ever called (no
`record_activity`) has `tool_call_count = 0` and `last_activity` equal to
the instant of the most recent recorded error, so `is_healthy` returns
true whenever evaluated within `max_idle_seconds` of that error — the
error-rate branch (guarded by `tool_calls > 0`) can never fire. -/
theorem error_only_session_stays_healthy (t0 : ℚ)
    (evs : List (ℚ × ErrorCategory)) (now max_idle : ℚ) (hne : evs ≠ [])
    (hwithin : now - (applyErrors t0 evs).last_activity ≤ max_idle) :
    (applyErrors t0 evs).tool_calls = 0 ∧
    (applyErrors t0 evs).last_activity = (evs.getLast hne).1 ∧
    (applyErrors t0 evs).is_healthy now max_idle = true := by
  have htc : (applyErrors t0 evs).tool_calls = 0 :=
    foldl_record_error_tool_calls evs (SessionHealth.init t0)
  have hla : (applyErrors t0 evs).last_activity = (evs.getLast hne).1 :=
    foldl_record_error_last evs hne (SessionHealth.init t0)
  refine ⟨htc, hla, ?_⟩
  simp [SessionHealth.is_healthy, htc, not_lt.mpr hwithin]

/-- Witness for `error_only_session_stays_healthy`: two errors at t = 1
and t = 2, health checked at t = 100 with the default 300-second idle
bound. -/
theorem error_only_session_stays_healthy_witness :
    (applyErrors 0 [(1, ErrorCategory.TRANSIENT), (2, ErrorCategory.LINEAR_API)]).tool_calls = 0 ∧
    (applyErrors 0 [(1, ErrorCategory.TRANSIENT), (2, ErrorCategory.LINEAR_API)]).last_activity
        = (([(1, ErrorCategory.TRANSIENT), ((2:ℚ), ErrorCategory.LINEAR_API)]).getLast (by simp)).1 ∧
    (applyErrors 0 [(1, ErrorCategory.TRANSIENT), (2, ErrorCategory.LINEAR_API)]).is_healthy 100 300 = true :=
  error_only_session_stays_healthy 0 [(1, ErrorCategory.TRANSIENT), (2, ErrorCategory.LINEAR_API)]
    100 300 (by simp)
    (by rw [show (applyErrors 0 [(1, ErrorCategory.TRANSIENT), (2, ErrorCategory.LINEAR_API)]).last_activity = 2 from rfl]; norm_num)
